import Mathlib

set_option maxHeartbeats 1000000

/-! Shallow embedding of the `wt` git-worktree manager (src/main.py).

The embedding models the Python string primitives used by the source
(`str.splitlines`, whitespace `str.split`, substring containment `in`),
`pathlib.Path` values, and the lifecycle operations.  External effects
(subprocess invocations, logging, the interactive fuzzy prompt) are made
explicit: every operation returns `Except PyErr α × List Event`, where the
`Except` layer models Python exceptions (`.error` = an exception in flight)
and the event list is the ordered trace of side effects.  A `GitEnv` oracle
fixes the listing text, the discoverable default branch, the success of each
git invocation, and the current working directory. -/

instance {ε α : Type} [DecidableEq ε] [DecidableEq α] : DecidableEq (Except ε α) :=
  fun x y =>
    match x, y with
    | Except.error e, Except.error f =>
      if h : e = f then Decidable.isTrue (congrArg Except.error h)
      else Decidable.isFalse (fun hh => h (Except.error.inj hh))
    | Except.ok a, Except.ok b =>
      if h : a = b then Decidable.isTrue (congrArg Except.ok h)
      else Decidable.isFalse (fun hh => h (Except.ok.inj hh))
    | Except.error _, Except.ok _ => Decidable.isFalse (fun hh => Except.noConfusion hh)
    | Except.ok _, Except.error _ => Decidable.isFalse (fun hh => Except.noConfusion hh)

/-- Python whitespace test used by `str.split()` (no separator argument). -/
def isWS (c : Char) : Bool := c = ' ' || c = '\t' || c = '\n' || c = '\r'

/-- Accumulator worker for Python `str.split()`: splits on runs of
whitespace, dropping empty tokens. -/
def pySplitAux : List Char → List Char → List (List Char)
  | acc, [] =>
    match acc with
    | [] => []
    | _ => [acc.reverse]
  | acc, c :: cs =>
    if isWS c then
      match acc with
      | [] => pySplitAux [] cs
      | _ => acc.reverse :: pySplitAux [] cs
    else pySplitAux (c :: acc) cs

/-- Python `s.split()` — whitespace tokenisation, empty tokens dropped. -/
def pySplit (s : String) : List String :=
  (pySplitAux [] s.toList).map (fun l => String.mk l)

/-- Accumulator worker for Python `str.splitlines()` on newline-separated
text: a trailing newline does not open a final empty line. -/
def splitlinesAux : List Char → List Char → List (List Char)
  | acc, [] => [acc.reverse]
  | acc, c :: cs =>
    if c = '\n' then
      match cs with
      | [] => [acc.reverse]
      | _ => acc.reverse :: splitlinesAux [] cs
    else splitlinesAux (c :: acc) cs

/-- Python `s.splitlines()` restricted to `'\n'` separators (the only line
separator the git listing produces). -/
def pySplitlines (s : String) : List String :=
  match s.toList with
  | [] => []
  | l => (splitlinesAux [] l).map (fun c => String.mk c)

/-- Python substring containment `sub in s`. -/
def strContains (s sub : String) : Bool :=
  s.toList.tails.any (fun t => sub.toList.isPrefixOf t)

/-- Worker splitting a character list on `'/'` (keeps empty segments, to be
filtered by `pathSegs`). -/
def splitSlashAux : List Char → List Char → List (List Char)
  | acc, [] => [acc.reverse]
  | acc, c :: cs =>
    if c = '/' then acc.reverse :: splitSlashAux [] cs
    else splitSlashAux (c :: acc) cs

/-- Model of `pathlib.Path` (POSIX): an absolute flag and the list of
non-empty, non-`"."` segments. -/
structure PyPath where
  absolute : Bool
  parts : List String
deriving DecidableEq

/-- Segments of a path string: split on `'/'`, dropping empty segments and
single dots, as `pathlib` normalisation does. -/
def pathSegs (l : List Char) : List String :=
  ((splitSlashAux [] l).map (fun c => String.mk c)).filter
    (fun s => s != "" && s != ".")

/-- Python `Path(s)`. -/
def pathFromString (s : String) : PyPath :=
  ⟨(match s.toList with
    | '/' :: _ => true
    | _ => false), pathSegs s.toList⟩

/-- Python `str(path)`. -/
def pathStr (p : PyPath) : String :=
  match p.absolute, p.parts with
  | false, [] => "."
  | false, ps => String.intercalate "/" ps
  | true, ps => "/" ++ String.intercalate "/" ps

/-- Python `path.name` — the final path segment, `""` when there is none. -/
def PyPath.name (p : PyPath) : String := p.parts.getLastD ""

/-- Python `path / s` — the joined path; an absolute right operand replaces
the left one. -/
def PyPath.div (p : PyPath) (s : String) : PyPath :=
  let q := pathFromString s
  if q.absolute then q else ⟨p.absolute, p.parts ++ q.parts⟩

/-- Python `Path()` — the empty relative path `"."`, used by the source as
its no-op / unresolved sentinel. -/
def pyPathEmpty : PyPath := ⟨false, []⟩

/-- src/main.py `path_is_truthy`: `not str(path) == "."`. -/
def path_is_truthy (p : PyPath) : Bool := !(pathStr p == ".")

/-- Python exceptions that the source can raise or catch. -/
inductive PyErr where
  | valueError (msg : String)
  | calledProcessError
  | indexError
  | attributeError
deriving DecidableEq

/-- Observable side effects of one operation, in order: git subprocess
invocations (with their working directory), log records, and invocations of
the interactive `iterfzf` prompt. -/
inductive Event where
  | gitRun (args : List String) (cwd : PyPath)
  | logInfo (msg : String)
  | logError (msg : String)
  | logException (msg : String)
  | prompt (options : List String)
deriving DecidableEq

/-- Environment oracle: the text a successful `git worktree list` returns,
the result of `get_default_branch_name()` (that source function catches its
own subprocess error and returns `""` when no default branch is
discoverable, so it is modelled as this string field), the success of each
git invocation (by filtered argument list and working directory), and the
process current working directory. -/
structure GitEnv where
  listing : String
  defaultBranch : String
  gitOk : List String → PyPath → Bool
  cwd : PyPath

/-- Behaviour of the user at the `iterfzf` prompt: pick a line, make
`iterfzf` return `None`, or interrupt (Ctrl-C). -/
inductive UserAction where
  | pick (line : String)
  | pickNone
  | interrupt
deriving DecidableEq

/-- src/main.py `git(*cmds, cwd=...)`: runs git with `check=True`, raising
`CalledProcessError` on failure.  `list(filter(None, [...]))` in the source
drops empty-string arguments, modelled by the `filter`. -/
def git (env : GitEnv) (args : List String) (cwd : PyPath) :
    Except PyErr Unit × List Event :=
  ((if env.gitOk (args.filter (fun a => a != "")) cwd then Except.ok ()
    else Except.error PyErr.calledProcessError),
   [Event.gitRun (args.filter (fun a => a != "")) cwd])

/-- src/main.py `is_inside_git_repo`: `git rev-parse` succeeds. -/
def is_inside_git_repo (env : GitEnv) : Bool × List Event :=
  match git env ["rev-parse"] env.cwd with
  | (Except.ok _, ev) => (true, ev)
  | (Except.error _, ev) => (false, ev)

/-- src/main.py `list_worktrees`: `git worktree list`, returning its stdout. -/
def list_worktrees (env : GitEnv) (cwd : PyPath) :
    Except PyErr String × List Event :=
  match git env ["worktree", "list"] cwd with
  | (Except.ok _, ev) => (Except.ok env.listing, ev)
  | (Except.error e, ev) => (Except.error e, ev)

/-- The loop body of src/main.py `get_bare_worktree_path` over the split
listing lines: first line containing `"(bare)"` wins; its first whitespace
token becomes the path; no such line raises `ValueError`. -/
def bareScan : List String → Except PyErr PyPath
  | [] => Except.error (PyErr.valueError "No bare worktree found")
  | line :: rest =>
    if strContains line "(bare)" then
      match pySplit line with
      | [] => Except.error PyErr.indexError
      | tok :: _ => Except.ok (pathFromString tok)
    else bareScan rest

/-- src/main.py `get_bare_worktree_path`. -/
def get_bare_worktree_path (env : GitEnv) (cwd : PyPath) :
    Except PyErr PyPath × List Event :=
  match list_worktrees env cwd with
  | (Except.ok text, ev) => (bareScan (pySplitlines text), ev)
  | (Except.error e, ev) => (Except.error e, ev)

/-- src/main.py `add_worktree`: resolve the bare root, `git worktree add`
with the bare root as working directory, compute the new path as
`bare_path / args.path[0]`, and when a default branch is discoverable fetch
and merge inside the new worktree.  Every `CalledProcessError` raised in the
`try` block is caught and logged; the computed path is returned regardless.
`args.path[0]` on an empty argument list raises an uncaught `IndexError`. -/
def add_worktree (env : GitEnv) (pathArgs : List String) :
    Except PyErr PyPath × List Event :=
  match get_bare_worktree_path env env.cwd with
  | (Except.error e, ev) => (Except.error e, ev)
  | (Except.ok bare_path, ev) =>
    match pathArgs with
    | [] => (Except.error PyErr.indexError, ev)
    | p0 :: _ =>
      let worktree_path := bare_path.div p0
      match git env (["worktree", "add"] ++ pathArgs) bare_path with
      | (Except.error _, ev2) =>
          (Except.ok worktree_path,
            ev ++ ev2 ++ [Event.logException ("Failed to add " ++ p0 ++ " worktree")])
      | (Except.ok _, ev2) =>
        if env.defaultBranch = "" then
          (Except.ok worktree_path, ev ++ ev2)
        else
          match git env ["fetch", "--all"] worktree_path with
          | (Except.error _, ev3) =>
              (Except.ok worktree_path,
                ev ++ ev2 ++ [Event.logInfo "Fetching changes"] ++ ev3 ++
                  [Event.logException ("Failed to add " ++ p0 ++ " worktree")])
          | (Except.ok _, ev3) =>
            match git env ["merge", env.defaultBranch] worktree_path with
            | (Except.error _, ev4) =>
                (Except.ok worktree_path,
                  ev ++ ev2 ++ [Event.logInfo "Fetching changes"] ++ ev3 ++
                    [Event.logInfo ("Merging with " ++ env.defaultBranch)] ++ ev4 ++
                    [Event.logException ("Failed to add " ++ p0 ++ " worktree")])
            | (Except.ok _, ev4) =>
                (Except.ok worktree_path,
                  ev ++ ev2 ++ [Event.logInfo "Fetching changes"] ++ ev3 ++
                    [Event.logInfo ("Merging with " ++ env.defaultBranch)] ++ ev4)

/-- The selector's candidate list: the listing lines, minus the ones
containing `"(bare)"` when `exclude_bare` is set (src/main.py line 80's
list comprehension). -/
def selectorOptions (text : String) (exclude_bare : Bool) : List String :=
  (pySplitlines text).filter
    (fun line => !(strContains line "(bare)" && exclude_bare))

/-- src/main.py `select_worktree`: filter bare lines out of the listing when
`exclude_bare`, return `Path()` with a logged error when no candidates are
left (prompt never invoked), otherwise run `iterfzf` — `KeyboardInterrupt`
yields `Path()`, a `None` choice raises `AttributeError` at
`choice.split()`, a chosen blank line raises `IndexError` at `[0]`. -/
def select_worktree (env : GitEnv) (ua : UserAction) (exclude_bare : Bool) :
    Except PyErr PyPath × List Event :=
  match list_worktrees env env.cwd with
  | (Except.error e, ev) => (Except.error e, ev)
  | (Except.ok text, ev) =>
    let options := selectorOptions text exclude_bare
    if options = [] then
      (Except.ok pyPathEmpty, ev ++ [Event.logError "No worktrees available."])
    else
      match ua with
      | UserAction.interrupt => (Except.ok pyPathEmpty, ev ++ [Event.prompt options])
      | UserAction.pickNone =>
          (Except.error PyErr.attributeError, ev ++ [Event.prompt options])
      | UserAction.pick choice =>
        match pySplit choice with
        | [] => (Except.error PyErr.indexError, ev ++ [Event.prompt options])
        | tok :: _ => (Except.ok (pathFromString tok), ev ++ [Event.prompt options])

/-- The filtered argument list git receives for one removal:
`["worktree", "remove", s, "--force" if force else ""]` after the
empty-string filter of `git(...)`. -/
def rmArgs (force : Bool) (s : String) : List String :=
  (["worktree", "remove", s, if force then "--force" else ""]).filter
    (fun a => a != "")

/-- The `for` loop of src/main.py `remove_worktree` in `--all` mode: skip
lines carrying `"(bare)"`, take `line.split()[0]` (an uncaught `IndexError`
on a token-less line — the indexing happens before the `try`), and attempt
`git worktree remove` per line, logging and continuing on
`CalledProcessError`. -/
def removeAllLoop (env : GitEnv) (force : Bool) (bp : PyPath) :
    List String → Except PyErr Unit × List Event
  | [] => (Except.ok (), [])
  | line :: rest =>
    if strContains line "(bare)" then removeAllLoop env force bp rest
    else
      match pySplit line with
      | [] => (Except.error PyErr.indexError, [])
      | tok :: _ =>
        match git env ["worktree", "remove", tok, if force then "--force" else ""] bp with
        | (Except.ok _, evg) =>
          let r := removeAllLoop env force bp rest
          (r.1, [Event.logInfo ("Removing " ++ tok ++ "...")] ++ evg ++ r.2)
        | (Except.error _, evg) =>
          let r := removeAllLoop env force bp rest
          (r.1, [Event.logInfo ("Removing " ++ tok ++ "...")] ++ evg ++
            [Event.logException ("Failed to remove " ++ tok ++ " worktree")] ++ r.2)

/-- src/main.py `remove_worktree`: `--all` mode changes directory to the
bare root, re-lists, and best-effort-removes every non-bare line, returning
the bare root; single mode selects interactively (bare excluded), returns
`Path()` on an empty or cancelled selection or on removal failure, and
otherwise returns the bare root when the removed worktree's final segment
equals the current directory's final segment, else the current directory. -/
def remove_worktree (env : GitEnv) (ua : UserAction) (all force : Bool) :
    Except PyErr PyPath × List Event :=
  match get_bare_worktree_path env env.cwd with
  | (Except.error e, ev) => (Except.error e, ev)
  | (Except.ok bare_path, ev) =>
    if all then
      match list_worktrees env bare_path with
      | (Except.error e, ev2) => (Except.error e, ev ++ ev2)
      | (Except.ok text, ev2) =>
        let r := removeAllLoop env force bare_path (pySplitlines text)
        match r.1 with
        | Except.ok _ => (Except.ok bare_path, ev ++ ev2 ++ r.2)
        | Except.error e => (Except.error e, ev ++ ev2 ++ r.2)
    else
      match select_worktree env ua true with
      | (Except.error e, ev2) => (Except.error e, ev ++ ev2)
      | (Except.ok dir_path, ev2) =>
        let cwd_path := env.cwd
        if path_is_truthy dir_path then
          match git env ["worktree", "remove", pathStr dir_path,
              if force then "--force" else ""] env.cwd with
          | (Except.error _, evg) =>
            (Except.ok pyPathEmpty,
              ev ++ ev2 ++ [Event.logInfo ("Removing worktree: " ++ pathStr dir_path)] ++
                evg ++ [Event.logException ("Failed to remove " ++ pathStr dir_path ++ " worktree")])
          | (Except.ok _, evg) =>
            (Except.ok (if dir_path.name = cwd_path.name then bare_path else cwd_path),
              ev ++ ev2 ++ [Event.logInfo ("Removing worktree: " ++ pathStr dir_path)] ++ evg)
        else
          (Except.ok pyPathEmpty, ev ++ ev2)

/-- src/main.py `switch_worktree`: select (bare excluded) and return the
selected path; a truthy selection is logged. -/
def switch_worktree (env : GitEnv) (ua : UserAction) :
    Except PyErr PyPath × List Event :=
  match select_worktree env ua true with
  | (Except.error e, ev) => (Except.error e, ev)
  | (Except.ok dir_path, ev) =>
    if path_is_truthy dir_path then
      (Except.ok dir_path,
        ev ++ [Event.logInfo ("Changing current worktree: " ++ dir_path.name)])
    else (Except.ok dir_path, ev)

/-- src/main.py `cd_bare`. -/
def cd_bare (env : GitEnv) : Except PyErr PyPath × List Event :=
  match get_bare_worktree_path env env.cwd with
  | (Except.error e, ev) => (Except.error e, ev)
  | (Except.ok bare_path, ev) =>
    (Except.ok bare_path,
      ev ++ [Event.logInfo ("Changing to bare directory: " ++ pathStr bare_path)])

/-- CLI subcommands of src/main.py `main` (no subcommand means switch). -/
inductive Command where
  | list
  | bare
  | add (path : List String)
  | remove (all force : Bool)
  | switch
deriving DecidableEq

/-- How one process invocation ends: `sys.exit(code)`, normal completion
printing `out`, or an uncaught Python exception. -/
inductive ProcResult where
  | exited (code : Nat)
  | printed (out : String)
  | crashed (e : PyErr)
deriving DecidableEq

/-- src/main.py `main` after argument parsing: exit 128 outside a git
repository, otherwise dispatch to the operation and print its result; an
exception escaping the operation crashes the process. -/
def main_dispatch (env : GitEnv) (cmd : Command) (ua : UserAction) :
    ProcResult × List Event :=
  match is_inside_git_repo env with
  | (false, ev) => (ProcResult.exited 128, ev ++ [Event.logError "Not a git repository"])
  | (true, ev) =>
    match cmd with
    | Command.list =>
      match list_worktrees env env.cwd with
      | (Except.ok text, ev2) => (ProcResult.printed text, ev ++ ev2)
      | (Except.error e, ev2) => (ProcResult.crashed e, ev ++ ev2)
    | Command.bare =>
      match cd_bare env with
      | (Except.ok p, ev2) => (ProcResult.printed (pathStr p), ev ++ ev2)
      | (Except.error e, ev2) => (ProcResult.crashed e, ev ++ ev2)
    | Command.add path =>
      match add_worktree env path with
      | (Except.ok p, ev2) => (ProcResult.printed (pathStr p), ev ++ ev2)
      | (Except.error e, ev2) => (ProcResult.crashed e, ev ++ ev2)
    | Command.remove all force =>
      match remove_worktree env ua all force with
      | (Except.ok p, ev2) => (ProcResult.printed (pathStr p), ev ++ ev2)
      | (Except.error e, ev2) => (ProcResult.crashed e, ev ++ ev2)
    | Command.switch =>
      match switch_worktree env ua with
      | (Except.ok p, ev2) => (ProcResult.printed (pathStr p), ev ++ ev2)
      | (Except.error e, ev2) => (ProcResult.crashed e, ev ++ ev2)

/-- Is this event a `git fetch` invocation? -/
def isFetchRun : Event → Bool
  | Event.gitRun ("fetch" :: _) _ => true
  | _ => false

/-- Is this event a `git merge` invocation? -/
def isMergeRun : Event → Bool
  | Event.gitRun ("merge" :: _) _ => true
  | _ => false

/-- Is this event an invocation of the interactive prompt? -/
def isPromptEv : Event → Bool
  | Event.prompt _ => true
  | _ => false

/-- Is this event a `logging.exception` record? -/
def isExceptionLog : Event → Bool
  | Event.logException _ => true
  | _ => false

/-- Does the trace contain a `git fetch` invocation? -/
def hasFetch (evs : List Event) : Bool := evs.any isFetchRun

/-- Does the trace contain a `git merge` invocation? -/
def hasMerge (evs : List Event) : Bool := evs.any isMergeRun

/-- Does the trace contain a prompt invocation? -/
def hasPrompt (evs : List Event) : Bool := evs.any isPromptEv

/-- Does the trace contain a `logging.exception` record? -/
def hasExceptionLog (evs : List Event) : Bool := evs.any isExceptionLog

/-- The removal target of a `git worktree remove` invocation event. -/
def removeTok : Event → Option String
  | Event.gitRun ("worktree" :: "remove" :: d :: _) _ => some d
  | _ => none

/-- The removal targets attempted in a trace, in order. -/
def removeRuns (evs : List Event) : List String := evs.filterMap removeTok

/-- The argument list of a git invocation event. -/
def gitRunArgs : Event → Option (List String)
  | Event.gitRun a _ => some a
  | _ => none

/-- All git invocations of a trace, in order. -/
def gitRuns (evs : List Event) : List (List String) := evs.filterMap gitRunArgs

/-- The non-bare listing lines' first tokens — the paths `remove --all`
should attempt to remove. -/
def removalTargets (lines : List String) : List String :=
  (lines.filter (fun l => !strContains l "(bare)")).map
    (fun l => (pySplit l).headD "")

/-- The filtered argument list git receives for `git worktree add`. -/
def addArgs (pathArgs : List String) : List String :=
  ((["worktree", "add"] ++ pathArgs)).filter (fun a => a != "")

/-! ## Concrete environments used by witnesses and counterexamples -/

/-- Listing with a blank second line; every git invocation succeeds. -/
def envC2 : GitEnv :=
  ⟨"/repo x (bare)\n\n/repo/a y", "", fun _ _ => true, pathFromString "/repo/a"⟩

/-- Bare root `/repo`, default branch `main`, every git invocation
succeeds. -/
def envC3 : GitEnv :=
  ⟨"/repo x (bare)\n/repo/a y", "main", fun _ _ => true,
   pathFromString "/repo/a"⟩

/-- Default branch `main`; only the fetch invocation fails. -/
def envC4 : GitEnv :=
  ⟨"/repo x (bare)\n/repo/a y", "main",
   fun a _ => !(a == ["fetch", "--all"]), pathFromString "/repo/a"⟩

/-- Default branch `main`; only the `worktree add` invocation fails. -/
def envC4w : GitEnv :=
  ⟨"/repo x (bare)", "main",
   fun a _ => !(a == ["worktree", "add", "feature-x"]), pathFromString "/repo"⟩

/-- Default branch `main`; only the merge invocation fails. -/
def envC4m : GitEnv :=
  ⟨"/repo x (bare)", "main",
   fun a _ => !(a == ["merge", "main"]), pathFromString "/repo"⟩

/-- Two non-bare worktrees; removing the first fails, the second
succeeds. -/
def envC5 : GitEnv :=
  ⟨"/repo x (bare)\n/repo/a y\n/repo/b z", "",
   fun a _ => !(a == ["worktree", "remove", "/repo/a"]),
   pathFromString "/somewhere"⟩

/-- Two non-bare worktrees, every git invocation succeeds; the current
directory's final segment matches `/repo/a`'s. -/
def envC6 : GitEnv :=
  ⟨"/repo x (bare)\n/repo/a y\n/repo/b z", "", fun _ _ => true,
   pathFromString "/other/a"⟩

/-- Listing holding only the bare record. -/
def envC7 : GitEnv := ⟨"/repo x (bare)", "", fun _ _ => true, pyPathEmpty⟩

/-- Bare root plus one worktree, every git invocation succeeds. -/
def envC8 : GitEnv :=
  ⟨"/repo x (bare)\n/repo/a y", "", fun _ _ => true, pathFromString "/repo/a"⟩

/-- Inside a repository whose listing has no bare record. -/
def envC9 : GitEnv :=
  ⟨"/repo/a bbb [main]", "", fun _ _ => true, pathFromString "/repo/a"⟩

/-- Outside a git repository: `rev-parse` fails. -/
def envC9w1 : GitEnv := ⟨"", "", fun a _ => !(a == ["rev-parse"]), pyPathEmpty⟩

/-- Bare root plus one worktree, every git invocation succeeds. -/
def envC9w2 : GitEnv :=
  ⟨"/repo x (bare)\n/repo/a y", "", fun _ _ => true, pathFromString "/repo/a"⟩

/-- Bare root only, every git invocation succeeds. -/
def envC10 : GitEnv :=
  ⟨"/repo x (bare)", "", fun _ _ => true, pathFromString "/repo"⟩

/-! ## String-level lemmas -/

/-- Every token produced by the whitespace splitter is non-empty. -/
theorem pySplitAux_mem_ne_nil (l : List Char) :
    ∀ acc : List Char, ∀ t ∈ pySplitAux acc l, t ≠ [] := by
  induction l with
  | nil =>
    intro acc t ht
    cases acc with
    | nil => simp [pySplitAux] at ht
    | cons a as =>
      simp [pySplitAux] at ht
      subst ht
      simp
  | cons c cs ih =>
    intro acc t ht
    by_cases hw : isWS c = true
    · cases acc with
      | nil =>
        simp only [pySplitAux, hw, if_true] at ht
        exact ih [] t ht
      | cons a as =>
        simp only [pySplitAux, hw, if_true, List.mem_cons] at ht
        rcases ht with h | h
        · subst h; simp
        · exact ih [] t h
    · have hw2 : isWS c = false := by simpa using hw
      simp only [pySplitAux, hw2, Bool.false_eq_true, if_false] at ht
      exact ih (c :: acc) t ht

/-- Every token of a Python whitespace split is a non-empty string. -/
theorem pySplit_mem_ne_empty (s : String) : ∀ t ∈ pySplit s, t ≠ "" := by
  intro t ht hte
  unfold pySplit at ht
  rcases List.mem_map.mp ht with ⟨l, hl, hmk⟩
  subst hmk
  apply pySplitAux_mem_ne_nil s.toList [] l hl
  exact congrArg String.data hte

/-- The whitespace splitter yields at least one token when a non-whitespace
character occurs (or a token is already in progress). -/
theorem pySplitAux_ne_nil (l : List Char) :
    ∀ acc : List Char, ((∃ c ∈ l, isWS c = false) ∨ acc ≠ []) →
      pySplitAux acc l ≠ [] := by
  induction l with
  | nil =>
    intro acc h
    rcases h with ⟨c, hc, _⟩ | hne
    · simp at hc
    · cases acc with
      | nil => exact absurd rfl hne
      | cons a as => simp [pySplitAux]
  | cons c cs ih =>
    intro acc h
    by_cases hw : isWS c = true
    · cases acc with
      | nil =>
        have hex : ∃ d ∈ cs, isWS d = false := by
          rcases h with ⟨d, hd, hdw⟩ | hne
          · rcases List.mem_cons.mp hd with rfl | hd2
            · rw [hw] at hdw; cases hdw
            · exact ⟨d, hd2, hdw⟩
          · exact absurd rfl hne
        simp only [pySplitAux, hw, if_true]
        exact ih [] (Or.inl hex)
      | cons a as => simp [pySplitAux, hw]
    · have hw2 : isWS c = false := by simpa using hw
      simp only [pySplitAux, hw2, Bool.false_eq_true, if_false]
      exact ih (c :: acc) (Or.inr (by simp))

/-- A substring hit puts the substring's first character into the string. -/
theorem strContains_char (line sub : String) (c0 : Char) (rest : List Char)
    (hsub : sub.toList = c0 :: rest) (h : strContains line sub = true) :
    c0 ∈ line.toList := by
  unfold strContains at h
  rw [List.any_eq_true] at h
  rcases h with ⟨t, htails, hpre⟩
  rw [hsub] at hpre
  have hp : (c0 :: rest) <+: t := List.isPrefixOf_iff_prefix.mp hpre
  have hmem : c0 ∈ t := hp.subset (List.mem_cons_self c0 rest)
  have hsuf : t <:+ line.toList := (List.mem_tails t line.toList).mp htails
  exact hsuf.subset hmem

/-- A line containing the bare marker splits into at least one token (the
marker itself is non-whitespace). -/
theorem pySplit_ne_nil_of_bare (line : String)
    (h : strContains line "(bare)" = true) : pySplit line ≠ [] := by
  have hc : '(' ∈ line.toList :=
    strContains_char line "(bare)" '(' "bare)".toList rfl h
  intro hnil
  apply pySplitAux_ne_nil line.toList [] (Or.inl ⟨'(', hc, by decide⟩)
  unfold pySplit at hnil
  exact List.map_eq_nil_iff.mp hnil

/-- `bareScan` characterised through `List.find?`: the first line carrying
the marker decides the result. -/
theorem bareScan_eq_find (lines : List String) :
    bareScan lines =
      match lines.find? (fun l => strContains l "(bare)") with
      | some line =>
        match pySplit line with
        | [] => Except.error PyErr.indexError
        | tok :: _ => Except.ok (pathFromString tok)
      | none => Except.error (PyErr.valueError "No bare worktree found") := by
  induction lines with
  | nil => rfl
  | cons line rest ih =>
    by_cases h : strContains line "(bare)" = true
    · have hf : (line :: rest).find? (fun l => strContains l "(bare)") = some line := by
        simp [List.find?, h]
      rw [hf]
      simp only [bareScan, h, if_true]
    · have h2 : strContains line "(bare)" = false := by simpa using h
      have hf : (line :: rest).find? (fun l => strContains l "(bare)") =
          rest.find? (fun l => strContains l "(bare)") := by
        simp [List.find?, h2]
      rw [hf]
      simp only [bareScan, h2, Bool.false_eq_true, if_false]
      exact ih

/-! ## Operation-level lemmas -/

theorem git_ok_eq (env : GitEnv) (args : List String) (cwd : PyPath)
    (h : env.gitOk (args.filter (fun a => a != "")) cwd = true) :
    git env args cwd =
      (Except.ok (), [Event.gitRun (args.filter (fun a => a != "")) cwd]) := by
  simp [git, h]

theorem git_fail_eq (env : GitEnv) (args : List String) (cwd : PyPath)
    (h : env.gitOk (args.filter (fun a => a != "")) cwd = false) :
    git env args cwd =
      (Except.error PyErr.calledProcessError,
       [Event.gitRun (args.filter (fun a => a != "")) cwd]) := by
  simp [git, h]

theorem list_worktrees_ok (env : GitEnv) (cwd : PyPath)
    (h : env.gitOk ["worktree", "list"] cwd = true) :
    list_worktrees env cwd =
      (Except.ok env.listing, [Event.gitRun ["worktree", "list"] cwd]) := by
  have hf : (["worktree", "list"] : List String).filter (fun a => a != "") =
      ["worktree", "list"] := by decide
  simp [list_worktrees, git, hf, h]

theorem get_bare_ok (env : GitEnv) (cwd : PyPath)
    (h : env.gitOk ["worktree", "list"] cwd = true) :
    get_bare_worktree_path env cwd =
      (bareScan (pySplitlines env.listing),
       [Event.gitRun ["worktree", "list"] cwd]) := by
  simp [get_bare_worktree_path, list_worktrees_ok env cwd h]

theorem inside_repo_true (env : GitEnv)
    (h : env.gitOk ["rev-parse"] env.cwd = true) :
    is_inside_git_repo env = (true, [Event.gitRun ["rev-parse"] env.cwd]) := by
  have hf : (["rev-parse"] : List String).filter (fun a => a != "") =
      ["rev-parse"] := by decide
  simp [is_inside_git_repo, git, hf, h]

theorem inside_repo_false (env : GitEnv)
    (h : env.gitOk ["rev-parse"] env.cwd = false) :
    is_inside_git_repo env = (false, [Event.gitRun ["rev-parse"] env.cwd]) := by
  have hf : (["rev-parse"] : List String).filter (fun a => a != "") =
      ["rev-parse"] := by decide
  simp [is_inside_git_repo, git, hf, h]

theorem select_empty_eq (env : GitEnv) (ua : UserAction) (xb : Bool)
    (hl : env.gitOk ["worktree", "list"] env.cwd = true)
    (hopt : selectorOptions env.listing xb = []) :
    select_worktree env ua xb =
      (Except.ok pyPathEmpty,
       [Event.gitRun ["worktree", "list"] env.cwd,
        Event.logError "No worktrees available."]) := by
  simp [select_worktree, list_worktrees_ok env env.cwd hl, hopt]

theorem select_interrupt_eq (env : GitEnv) (xb : Bool)
    (hl : env.gitOk ["worktree", "list"] env.cwd = true)
    (hopt : selectorOptions env.listing xb ≠ []) :
    select_worktree env UserAction.interrupt xb =
      (Except.ok pyPathEmpty,
       [Event.gitRun ["worktree", "list"] env.cwd,
        Event.prompt (selectorOptions env.listing xb)]) := by
  simp [select_worktree, list_worktrees_ok env env.cwd hl, hopt]

theorem select_pick_eq (env : GitEnv) (xb : Bool) (choice tok : String)
    (toks : List String)
    (hl : env.gitOk ["worktree", "list"] env.cwd = true)
    (hopt : selectorOptions env.listing xb ≠ [])
    (hsplit : pySplit choice = tok :: toks) :
    select_worktree env (UserAction.pick choice) xb =
      (Except.ok (pathFromString tok),
       [Event.gitRun ["worktree", "list"] env.cwd,
        Event.prompt (selectorOptions env.listing xb)]) := by
  simp [select_worktree, list_worktrees_ok env env.cwd hl, hopt, hsplit]

/-! Event-classifier evaluation lemmas. -/

theorem removeTok_rm (d : String) (X : List String) (c : PyPath) :
    removeTok (Event.gitRun ("worktree" :: "remove" :: d :: X) c) = some d := rfl

theorem removeTok_list (X : List String) (c : PyPath) :
    removeTok (Event.gitRun ("worktree" :: "list" :: X) c) = none := rfl

theorem removeTok_revparse (c : PyPath) :
    removeTok (Event.gitRun ["rev-parse"] c) = none := rfl

theorem removeTok_logInfo (m : String) : removeTok (Event.logInfo m) = none := rfl

theorem removeTok_logError (m : String) : removeTok (Event.logError m) = none := rfl

theorem removeTok_logExc (m : String) :
    removeTok (Event.logException m) = none := rfl

theorem removeTok_prompt (o : List String) : removeTok (Event.prompt o) = none := rfl

theorem isFetchRun_worktree (X : List String) (c : PyPath) :
    isFetchRun (Event.gitRun ("worktree" :: X) c) = false := rfl

theorem isFetchRun_fetch (X : List String) (c : PyPath) :
    isFetchRun (Event.gitRun ("fetch" :: X) c) = true := rfl

theorem isFetchRun_merge (X : List String) (c : PyPath) :
    isFetchRun (Event.gitRun ("merge" :: X) c) = false := rfl

theorem isFetchRun_logInfo (m : String) : isFetchRun (Event.logInfo m) = false := rfl

theorem isFetchRun_logExc (m : String) :
    isFetchRun (Event.logException m) = false := rfl

theorem isMergeRun_worktree (X : List String) (c : PyPath) :
    isMergeRun (Event.gitRun ("worktree" :: X) c) = false := rfl

theorem isMergeRun_fetch (X : List String) (c : PyPath) :
    isMergeRun (Event.gitRun ("fetch" :: X) c) = false := rfl

theorem isMergeRun_merge (X : List String) (c : PyPath) :
    isMergeRun (Event.gitRun ("merge" :: X) c) = true := rfl

theorem isMergeRun_logInfo (m : String) : isMergeRun (Event.logInfo m) = false := rfl

theorem isMergeRun_logExc (m : String) :
    isMergeRun (Event.logException m) = false := rfl

theorem isExceptionLog_logExc (m : String) :
    isExceptionLog (Event.logException m) = true := rfl

theorem isExceptionLog_logInfo (m : String) :
    isExceptionLog (Event.logInfo m) = false := rfl

theorem isExceptionLog_gitRun (a : List String) (c : PyPath) :
    isExceptionLog (Event.gitRun a c) = false := rfl

theorem isPromptEv_gitRun (a : List String) (c : PyPath) :
    isPromptEv (Event.gitRun a c) = false := rfl

theorem isPromptEv_logError (m : String) : isPromptEv (Event.logError m) = false := rfl

theorem isPromptEv_logInfo (m : String) : isPromptEv (Event.logInfo m) = false := rfl

/-! Argument-list normal forms. -/

theorem rmArgs_eq (force : Bool) (s : String) (hs : s ≠ "") :
    rmArgs force s =
      "worktree" :: "remove" :: s :: (if force then ["--force"] else []) := by
  have h1 : (s != "") = true := bne_iff_ne.mpr hs
  cases force <;> simp [rmArgs, h1]

theorem addFilter_cons (pathArgs : List String) :
    ((["worktree", "add"] ++ pathArgs)).filter (fun a => a != "") =
      "worktree" :: "add" :: pathArgs.filter (fun a => a != "") := by
  simp [List.filter_cons]

theorem fetchFilter : (["fetch", "--all"] : List String).filter (fun a => a != "") =
    ["fetch", "--all"] := by decide

theorem mergeFilter (db : String) :
    (["merge", db] : List String).filter (fun a => a != "") =
      "merge" :: [db].filter (fun a => a != "") := by
  simp [List.filter_cons]

/-- `remove --all` loop, well-formed lines: completes, attempts exactly the
non-bare lines' first tokens in order, and logs every failed removal. -/
theorem removeAllLoop_spec (env : GitEnv) (force : Bool) (bp : PyPath)
    (lines : List String)
    (htok : ∀ l ∈ lines, strContains l "(bare)" = true ∨ pySplit l ≠ []) :
    (removeAllLoop env force bp lines).1 = Except.ok () ∧
    removeRuns (removeAllLoop env force bp lines).2 = removalTargets lines ∧
    (∀ tok ∈ removalTargets lines, env.gitOk (rmArgs force tok) bp = false →
      Event.logException ("Failed to remove " ++ tok ++ " worktree") ∈
        (removeAllLoop env force bp lines).2) := by
  induction lines with
  | nil =>
    refine ⟨rfl, rfl, ?_⟩
    intro tok h
    simp [removalTargets] at h
  | cons line rest ih =>
    have hrest := ih (fun l hl => htok l (List.mem_cons_of_mem line hl))
    by_cases hb : strContains line "(bare)" = true
    · have e1 : removeAllLoop env force bp (line :: rest) =
          removeAllLoop env force bp rest := by
        simp [removeAllLoop, hb]
      have e2 : removalTargets (line :: rest) = removalTargets rest := by
        simp [removalTargets, hb]
      rw [e1, e2]
      exact hrest
    · have hb2 : strContains line "(bare)" = false := by simpa using hb
      obtain ⟨tok, toks, hsplit⟩ : ∃ tok toks, pySplit line = tok :: toks := by
        rcases htok line (List.mem_cons_self line rest) with h | hne
        · rw [hb2] at h; cases h
        · cases hsp : pySplit line with
          | nil => exact absurd hsp hne
          | cons a as => exact ⟨a, as, rfl⟩
      have htokne : tok ≠ "" :=
        pySplit_mem_ne_empty line tok (hsplit ▸ List.mem_cons_self tok toks)
      have hr : rmArgs force tok =
          "worktree" :: "remove" :: tok :: (if force then ["--force"] else []) :=
        rmArgs_eq force tok htokne
      have e2 : removalTargets (line :: rest) = tok :: removalTargets rest := by
        simp [removalTargets, hb2, hsplit]
      by_cases hg : env.gitOk (rmArgs force tok) bp = true
      · have hgit : git env ["worktree", "remove", tok,
            if force then "--force" else ""] bp =
            (Except.ok (), [Event.gitRun (rmArgs force tok) bp]) :=
          git_ok_eq env _ bp hg
        have e1 : removeAllLoop env force bp (line :: rest) =
            ((removeAllLoop env force bp rest).1,
             [Event.logInfo ("Removing " ++ tok ++ "...")] ++
               [Event.gitRun (rmArgs force tok) bp] ++
               (removeAllLoop env force bp rest).2) := by
          simp [removeAllLoop, hb2, hsplit, hgit]
        rw [e1, e2]
        refine ⟨hrest.1, ?_, ?_⟩
        · simp only [removeRuns, List.filterMap_append, List.filterMap_cons,
            removeTok_logInfo, hr, removeTok_rm, List.filterMap_nil]
          simp [removeRuns] at hrest
          simp [hrest.2.1]
        · intro t hmem hfail
          rcases List.mem_cons.mp hmem with rfl | hmem2
          · rw [hg] at hfail; cases hfail
          · have := hrest.2.2 t hmem2 hfail
            simp only [List.mem_append]
            exact Or.inr this
      · have hg2 : env.gitOk (rmArgs force tok) bp = false := by simpa using hg
        have hgit : git env ["worktree", "remove", tok,
            if force then "--force" else ""] bp =
            (Except.error PyErr.calledProcessError,
             [Event.gitRun (rmArgs force tok) bp]) :=
          git_fail_eq env _ bp hg2
        have e1 : removeAllLoop env force bp (line :: rest) =
            ((removeAllLoop env force bp rest).1,
             [Event.logInfo ("Removing " ++ tok ++ "...")] ++
               [Event.gitRun (rmArgs force tok) bp] ++
               [Event.logException ("Failed to remove " ++ tok ++ " worktree")] ++
               (removeAllLoop env force bp rest).2) := by
          simp [removeAllLoop, hb2, hsplit, hgit]
        rw [e1, e2]
        refine ⟨hrest.1, ?_, ?_⟩
        · simp only [removeRuns, List.filterMap_append, List.filterMap_cons,
            removeTok_logInfo, removeTok_logExc, hr, removeTok_rm, List.filterMap_nil]
          simp [removeRuns] at hrest
          simp [hrest.2.1]
        · intro t hmem hfail
          rcases List.mem_cons.mp hmem with rfl | hmem2
          · simp
          · have := hrest.2.2 t hmem2 hfail
            simp only [List.mem_append]
            exact Or.inr this

/-- `remove --all` loop: a non-bare line with no tokens raises an uncaught
`IndexError`. -/
theorem removeAllLoop_err (env : GitEnv) (force : Bool) (bp : PyPath)
    (lines : List String) :
    ∀ l ∈ lines, strContains l "(bare)" = false → pySplit l = [] →
      (removeAllLoop env force bp lines).1 = Except.error PyErr.indexError := by
  induction lines with
  | nil => intro l hl; simp at hl
  | cons line rest ih =>
    intro l hl hbare hsplit
    rcases List.mem_cons.mp hl with rfl | hmem
    · simp [removeAllLoop, hbare, hsplit]
    · by_cases hb : strContains line "(bare)" = true
      · have e : removeAllLoop env force bp (line :: rest) =
            removeAllLoop env force bp rest := by
          simp [removeAllLoop, hb]
        rw [e]
        exact ih l hmem hbare hsplit
      · have hb2 : strContains line "(bare)" = false := by simpa using hb
        cases hsp : pySplit line with
        | nil => simp [removeAllLoop, hb2, hsp]
        | cons t ts =>
          have hrec := ih l hmem hbare hsplit
          have e : (removeAllLoop env force bp (line :: rest)).1 =
              (removeAllLoop env force bp rest).1 := by
            rcases hgit : git env ["worktree", "remove", t,
                if force then "--force" else ""] bp with ⟨r1, ev1⟩
            cases r1 <;> simp [removeAllLoop, hb2, hsp, hgit]
          rw [e]
          exact hrec

/-- `add` always returns the computed worktree directory once the bare root
resolves, whatever the add/fetch/merge invocations do. -/
theorem add_result_ok (env : GitEnv) (p0 : String) (rest : List String)
    (B : PyPath)
    (hl : env.gitOk ["worktree", "list"] env.cwd = true)
    (hbare : bareScan (pySplitlines env.listing) = Except.ok B) :
    (add_worktree env (p0 :: rest)).1 = Except.ok (B.div p0) := by
  have hg := get_bare_ok env env.cwd hl
  simp only [add_worktree, hg, hbare]
  rcases h1 : git env (["worktree", "add"] ++ p0 :: rest) B with ⟨r1, ev1⟩
  cases r1 with
  | error e => simp [h1]
  | ok u =>
    by_cases hdb : env.defaultBranch = ""
    · simp [h1, hdb]
    · rcases h2 : git env ["fetch", "--all"] (B.div p0) with ⟨r2, ev2⟩
      cases r2 with
      | error e => simp [h1, hdb, h2]
      | ok u2 =>
        rcases h3 : git env ["merge", env.defaultBranch] (B.div p0) with ⟨r3, ev3⟩
        cases r3 <;> simp [h1, hdb, h2, h3]

/-- `add` with no discoverable default branch never fetches or merges. -/
theorem add_no_branch (env : GitEnv) (p0 : String) (rest : List String)
    (B : PyPath)
    (hl : env.gitOk ["worktree", "list"] env.cwd = true)
    (hbare : bareScan (pySplitlines env.listing) = Except.ok B)
    (hdb : env.defaultBranch = "") :
    hasFetch (add_worktree env (p0 :: rest)).2 = false ∧
    hasMerge (add_worktree env (p0 :: rest)).2 = false := by
  have hg := get_bare_ok env env.cwd hl
  by_cases hadd : env.gitOk (addArgs (p0 :: rest)) B = true
  · have h1 : git env ("worktree" :: "add" :: p0 :: rest) B =
        (Except.ok (), [Event.gitRun (addArgs (p0 :: rest)) B]) :=
      git_ok_eq env _ B hadd
    have e : add_worktree env (p0 :: rest) =
        (Except.ok (B.div p0),
         [Event.gitRun ["worktree", "list"] env.cwd,
          Event.gitRun (addArgs (p0 :: rest)) B]) := by
      simp [add_worktree, hg, hbare, h1, hdb]
    rw [e]
    simp only [hasFetch, hasMerge, List.any_cons, List.any_nil, addArgs,
      addFilter_cons, isFetchRun_worktree, isMergeRun_worktree,
      isFetchRun_logInfo, isMergeRun_logInfo, Bool.or_false, Bool.false_or]
    constructor <;> trivial
  · have hadd2 : env.gitOk (addArgs (p0 :: rest)) B = false := by simpa using hadd
    have h1 : git env ("worktree" :: "add" :: p0 :: rest) B =
        (Except.error PyErr.calledProcessError,
         [Event.gitRun (addArgs (p0 :: rest)) B]) :=
      git_fail_eq env _ B hadd2
    have e : add_worktree env (p0 :: rest) =
        (Except.ok (B.div p0),
         [Event.gitRun ["worktree", "list"] env.cwd,
          Event.gitRun (addArgs (p0 :: rest)) B,
          Event.logException ("Failed to add " ++ p0 ++ " worktree")]) := by
      simp [add_worktree, hg, hbare, h1]
    rw [e]
    simp only [hasFetch, hasMerge, List.any_cons, List.any_nil, addArgs,
      addFilter_cons, isFetchRun_worktree, isMergeRun_worktree,
      isFetchRun_logExc, isMergeRun_logExc, Bool.or_false, Bool.false_or]
    constructor <;> trivial

/-- `add`: a failing `git worktree add` aborts fetch and merge, is logged,
and the computed path is still returned. -/
theorem add_step_failed (env : GitEnv) (p0 : String) (rest : List String)
    (B : PyPath)
    (hl : env.gitOk ["worktree", "list"] env.cwd = true)
    (hbare : bareScan (pySplitlines env.listing) = Except.ok B)
    (hadd : env.gitOk (addArgs (p0 :: rest)) B = false) :
    hasFetch (add_worktree env (p0 :: rest)).2 = false ∧
    hasMerge (add_worktree env (p0 :: rest)).2 = false ∧
    hasExceptionLog (add_worktree env (p0 :: rest)).2 = true := by
  have hg := get_bare_ok env env.cwd hl
  have h1 : git env ("worktree" :: "add" :: p0 :: rest) B =
      (Except.error PyErr.calledProcessError,
       [Event.gitRun (addArgs (p0 :: rest)) B]) :=
    git_fail_eq env _ B hadd
  have e : add_worktree env (p0 :: rest) =
      (Except.ok (B.div p0),
       [Event.gitRun ["worktree", "list"] env.cwd,
        Event.gitRun (addArgs (p0 :: rest)) B,
        Event.logException ("Failed to add " ++ p0 ++ " worktree")]) := by
    simp [add_worktree, hg, hbare, h1]
  rw [e]
  simp only [hasFetch, hasMerge, hasExceptionLog, List.any_cons, List.any_nil,
    addArgs, addFilter_cons, isFetchRun_worktree, isMergeRun_worktree,
    isFetchRun_logExc, isMergeRun_logExc, isExceptionLog_gitRun,
    isExceptionLog_logExc, Bool.or_false, Bool.false_or, Bool.or_true]
  exact ⟨trivial, trivial, trivial⟩

/-- `add`: a failing fetch aborts the merge, is logged, and the computed
path is still returned. -/
theorem add_fetch_failed (env : GitEnv) (p0 : String) (rest : List String)
    (B : PyPath)
    (hl : env.gitOk ["worktree", "list"] env.cwd = true)
    (hbare : bareScan (pySplitlines env.listing) = Except.ok B)
    (hdb : env.defaultBranch ≠ "")
    (hadd : env.gitOk (addArgs (p0 :: rest)) B = true)
    (hfetch : env.gitOk ["fetch", "--all"] (B.div p0) = false) :
    hasFetch (add_worktree env (p0 :: rest)).2 = true ∧
    hasMerge (add_worktree env (p0 :: rest)).2 = false ∧
    hasExceptionLog (add_worktree env (p0 :: rest)).2 = true := by
  have hg := get_bare_ok env env.cwd hl
  have h1 : git env ("worktree" :: "add" :: p0 :: rest) B =
      (Except.ok (), [Event.gitRun (addArgs (p0 :: rest)) B]) :=
    git_ok_eq env _ B hadd
  have hfetch2 : env.gitOk ((["fetch", "--all"] : List String).filter
      (fun a => a != "")) (B.div p0) = false := by
    rw [fetchFilter]; exact hfetch
  have h2 : git env ["fetch", "--all"] (B.div p0) =
      (Except.error PyErr.calledProcessError,
       [Event.gitRun ["fetch", "--all"] (B.div p0)]) := by
    have := git_fail_eq env ["fetch", "--all"] (B.div p0) hfetch2
    rwa [fetchFilter] at this
  have e : add_worktree env (p0 :: rest) =
      (Except.ok (B.div p0),
       [Event.gitRun ["worktree", "list"] env.cwd,
        Event.gitRun (addArgs (p0 :: rest)) B,
        Event.logInfo "Fetching changes",
        Event.gitRun ["fetch", "--all"] (B.div p0),
        Event.logException ("Failed to add " ++ p0 ++ " worktree")]) := by
    simp [add_worktree, hg, hbare, h1, hdb, h2]
  rw [e]
  simp only [hasFetch, hasMerge, hasExceptionLog, List.any_cons, List.any_nil,
    addArgs, addFilter_cons, isFetchRun_worktree, isMergeRun_worktree,
    isFetchRun_fetch, isMergeRun_fetch, isFetchRun_logInfo, isMergeRun_logInfo,
    isFetchRun_logExc, isMergeRun_logExc, isExceptionLog_gitRun,
    isExceptionLog_logInfo, isExceptionLog_logExc, Bool.or_false,
    Bool.false_or, Bool.or_true, Bool.true_or]
  exact ⟨trivial, trivial, trivial⟩

/-- `add`: a failing merge (the last step) is logged, and the computed path
is still returned. -/
theorem add_merge_failed (env : GitEnv) (p0 : String) (rest : List String)
    (B : PyPath)
    (hl : env.gitOk ["worktree", "list"] env.cwd = true)
    (hbare : bareScan (pySplitlines env.listing) = Except.ok B)
    (hdb : env.defaultBranch ≠ "")
    (hadd : env.gitOk (addArgs (p0 :: rest)) B = true)
    (hfetch : env.gitOk ["fetch", "--all"] (B.div p0) = true)
    (hmerge : env.gitOk ["merge", env.defaultBranch] (B.div p0) = false) :
    hasExceptionLog (add_worktree env (p0 :: rest)).2 = true := by
  have hg := get_bare_ok env env.cwd hl
  have h1 : git env ("worktree" :: "add" :: p0 :: rest) B =
      (Except.ok (), [Event.gitRun (addArgs (p0 :: rest)) B]) :=
    git_ok_eq env _ B hadd
  have hfetch2 : env.gitOk ((["fetch", "--all"] : List String).filter
      (fun a => a != "")) (B.div p0) = true := by
    rw [fetchFilter]; exact hfetch
  have h2 : git env ["fetch", "--all"] (B.div p0) =
      (Except.ok (), [Event.gitRun ["fetch", "--all"] (B.div p0)]) := by
    have := git_ok_eq env ["fetch", "--all"] (B.div p0) hfetch2
    rwa [fetchFilter] at this
  have hdbne : (env.defaultBranch != "") = true := bne_iff_ne.mpr hdb
  have hmf : (["merge", env.defaultBranch] : List String).filter
      (fun a => a != "") = ["merge", env.defaultBranch] := by
    simp [List.filter_cons, hdbne]
  have hmerge2 : env.gitOk ((["merge", env.defaultBranch] : List String).filter
      (fun a => a != "")) (B.div p0) = false := by
    rw [hmf]; exact hmerge
  have h3 : git env ["merge", env.defaultBranch] (B.div p0) =
      (Except.error PyErr.calledProcessError,
       [Event.gitRun ["merge", env.defaultBranch] (B.div p0)]) := by
    have := git_fail_eq env ["merge", env.defaultBranch] (B.div p0) hmerge2
    rwa [hmf] at this
  have e : add_worktree env (p0 :: rest) =
      (Except.ok (B.div p0),
       [Event.gitRun ["worktree", "list"] env.cwd,
        Event.gitRun (addArgs (p0 :: rest)) B,
        Event.logInfo "Fetching changes",
        Event.gitRun ["fetch", "--all"] (B.div p0),
        Event.logInfo ("Merging with " ++ env.defaultBranch),
        Event.gitRun ["merge", env.defaultBranch] (B.div p0),
        Event.logException ("Failed to add " ++ p0 ++ " worktree")]) := by
    simp [add_worktree, hg, hbare, h1, hdb, h2, h3]
  rw [e]
  simp only [hasExceptionLog, List.any_cons, List.any_nil,
    isExceptionLog_gitRun, isExceptionLog_logInfo, isExceptionLog_logExc,
    Bool.or_false, Bool.false_or, Bool.or_true, Bool.true_or]

/-- `add`: with a discoverable branch and a successful add, the fetch is
issued, and when it succeeds the merge is issued too. -/
theorem add_fetch_ran (env : GitEnv) (p0 : String) (rest : List String)
    (B : PyPath)
    (hl : env.gitOk ["worktree", "list"] env.cwd = true)
    (hbare : bareScan (pySplitlines env.listing) = Except.ok B)
    (hdb : env.defaultBranch ≠ "")
    (hadd : env.gitOk (addArgs (p0 :: rest)) B = true) :
    hasFetch (add_worktree env (p0 :: rest)).2 = true ∧
    (env.gitOk ["fetch", "--all"] (B.div p0) = true →
      hasMerge (add_worktree env (p0 :: rest)).2 = true) := by
  have hg := get_bare_ok env env.cwd hl
  have h1 : git env ("worktree" :: "add" :: p0 :: rest) B =
      (Except.ok (), [Event.gitRun (addArgs (p0 :: rest)) B]) :=
    git_ok_eq env _ B hadd
  by_cases hf : env.gitOk ["fetch", "--all"] (B.div p0) = true
  · have hfetch2 : env.gitOk ((["fetch", "--all"] : List String).filter
        (fun a => a != "")) (B.div p0) = true := by
      rw [fetchFilter]; exact hf
    have h2 : git env ["fetch", "--all"] (B.div p0) =
        (Except.ok (), [Event.gitRun ["fetch", "--all"] (B.div p0)]) := by
      have := git_ok_eq env ["fetch", "--all"] (B.div p0) hfetch2
      rwa [fetchFilter] at this
    rcases h3 : git env ["merge", env.defaultBranch] (B.div p0) with ⟨r3, ev3⟩
    have hev3 : ev3 = [Event.gitRun ("merge" :: [env.defaultBranch].filter
        (fun a => a != "")) (B.div p0)] := by
      have h4 : ev3 = (git env ["merge", env.defaultBranch] (B.div p0)).2 := by
        rw [h3]
      rw [h4]
      simp [git, mergeFilter]
    subst hev3
    cases r3 with
    | error e3 =>
      have e : add_worktree env (p0 :: rest) =
          (Except.ok (B.div p0),
           [Event.gitRun ["worktree", "list"] env.cwd,
            Event.gitRun (addArgs (p0 :: rest)) B,
            Event.logInfo "Fetching changes",
            Event.gitRun ["fetch", "--all"] (B.div p0),
            Event.logInfo ("Merging with " ++ env.defaultBranch),
            Event.gitRun ("merge" :: [env.defaultBranch].filter
              (fun a => a != "")) (B.div p0),
            Event.logException ("Failed to add " ++ p0 ++ " worktree")]) := by
        simp [add_worktree, hg, hbare, h1, hdb, h2, h3]
      rw [e]
      refine ⟨?_, fun _ => ?_⟩ <;>
        simp only [hasFetch, hasMerge, List.any_cons, List.any_nil, addArgs,
          addFilter_cons, isFetchRun_worktree, isMergeRun_worktree,
          isFetchRun_fetch, isMergeRun_fetch, isFetchRun_merge,
          isMergeRun_merge, isFetchRun_logInfo, isMergeRun_logInfo,
          isFetchRun_logExc, isMergeRun_logExc, Bool.or_false, Bool.false_or,
          Bool.or_true, Bool.true_or]
    | ok u3 =>
      have e : add_worktree env (p0 :: rest) =
          (Except.ok (B.div p0),
           [Event.gitRun ["worktree", "list"] env.cwd,
            Event.gitRun (addArgs (p0 :: rest)) B,
            Event.logInfo "Fetching changes",
            Event.gitRun ["fetch", "--all"] (B.div p0),
            Event.logInfo ("Merging with " ++ env.defaultBranch),
            Event.gitRun ("merge" :: [env.defaultBranch].filter
              (fun a => a != "")) (B.div p0)]) := by
        simp [add_worktree, hg, hbare, h1, hdb, h2, h3]
      rw [e]
      refine ⟨?_, fun _ => ?_⟩ <;>
        simp only [hasFetch, hasMerge, List.any_cons, List.any_nil, addArgs,
          addFilter_cons, isFetchRun_worktree, isMergeRun_worktree,
          isFetchRun_fetch, isMergeRun_fetch, isFetchRun_merge,
          isMergeRun_merge, isFetchRun_logInfo, isMergeRun_logInfo,
          Bool.or_false, Bool.false_or, Bool.or_true, Bool.true_or]
  · have hf2 : env.gitOk ["fetch", "--all"] (B.div p0) = false := by
      simpa using hf
    have hfetch2 : env.gitOk ((["fetch", "--all"] : List String).filter
        (fun a => a != "")) (B.div p0) = false := by
      rw [fetchFilter]; exact hf2
    have h2 : git env ["fetch", "--all"] (B.div p0) =
        (Except.error PyErr.calledProcessError,
         [Event.gitRun ["fetch", "--all"] (B.div p0)]) := by
      have := git_fail_eq env ["fetch", "--all"] (B.div p0) hfetch2
      rwa [fetchFilter] at this
    have e : add_worktree env (p0 :: rest) =
        (Except.ok (B.div p0),
         [Event.gitRun ["worktree", "list"] env.cwd,
          Event.gitRun (addArgs (p0 :: rest)) B,
          Event.logInfo "Fetching changes",
          Event.gitRun ["fetch", "--all"] (B.div p0),
          Event.logException ("Failed to add " ++ p0 ++ " worktree")]) := by
      simp [add_worktree, hg, hbare, h1, hdb, h2]
    rw [e]
    refine ⟨?_, fun hc => absurd hc (by simp [hf2])⟩
    simp only [hasFetch, List.any_cons, List.any_nil, addArgs, addFilter_cons,
      isFetchRun_worktree, isFetchRun_fetch, isFetchRun_logInfo,
      isFetchRun_logExc, Bool.or_false, Bool.false_or, Bool.or_true,
      Bool.true_or]

/-- `remove --all`: returns the bare root, attempts exactly the non-bare
lines' first tokens, and logs every failed removal. -/
theorem remove_all_spec (env : GitEnv) (ua : UserAction) (force : Bool)
    (B : PyPath)
    (hl : env.gitOk ["worktree", "list"] env.cwd = true)
    (hbare : bareScan (pySplitlines env.listing) = Except.ok B)
    (hlB : env.gitOk ["worktree", "list"] B = true)
    (htok : ∀ l ∈ pySplitlines env.listing,
      strContains l "(bare)" = true ∨ pySplit l ≠ []) :
    (remove_worktree env ua true force).1 = Except.ok B ∧
    removeRuns (remove_worktree env ua true force).2 =
      removalTargets (pySplitlines env.listing) ∧
    (∀ tok ∈ removalTargets (pySplitlines env.listing),
      env.gitOk (rmArgs force tok) B = false →
        Event.logException ("Failed to remove " ++ tok ++ " worktree") ∈
          (remove_worktree env ua true force).2) := by
  have hg := get_bare_ok env env.cwd hl
  have hlist := list_worktrees_ok env B hlB
  have hloop := removeAllLoop_spec env force B (pySplitlines env.listing) htok
  have e : remove_worktree env ua true force =
      (Except.ok B,
       [Event.gitRun ["worktree", "list"] env.cwd,
        Event.gitRun ["worktree", "list"] B] ++
         (removeAllLoop env force B (pySplitlines env.listing)).2) := by
    rcases hlp : removeAllLoop env force B (pySplitlines env.listing) with ⟨r1, evl⟩
    have hr1 : r1 = Except.ok () := by
      have h2 := hloop.1
      rw [hlp] at h2
      exact h2
    subst hr1
    simp [remove_worktree, hg, hbare, hlist, hlp]
  rw [e]
  refine ⟨rfl, ?_, ?_⟩
  · simp only [removeRuns, List.filterMap_append, List.filterMap_cons,
      removeTok_list, List.filterMap_nil, List.nil_append]
    exact hloop.2.1
  · intro tok hmem hfail
    have hm := hloop.2.2 tok hmem hfail
    simp only [List.mem_append, List.mem_cons]
    right
    exact hm

/-- Single-target `remove` when the selector comes back empty: no-op. -/
theorem remove_single_empty (env : GitEnv) (ua : UserAction) (force : Bool)
    (B : PyPath)
    (hl : env.gitOk ["worktree", "list"] env.cwd = true)
    (hbare : bareScan (pySplitlines env.listing) = Except.ok B)
    (hopt : selectorOptions env.listing true = []) :
    (remove_worktree env ua false force).1 = Except.ok pyPathEmpty := by
  have hg := get_bare_ok env env.cwd hl
  have hsel := select_empty_eq env ua true hl hopt
  have hpt : path_is_truthy pyPathEmpty = false := by decide
  simp [remove_worktree, hg, hbare, hsel, hpt]

/-- Single-target `remove` under a cancelled selection: no-op. -/
theorem remove_single_interrupt (env : GitEnv) (force : Bool) (B : PyPath)
    (hl : env.gitOk ["worktree", "list"] env.cwd = true)
    (hbare : bareScan (pySplitlines env.listing) = Except.ok B) :
    (remove_worktree env UserAction.interrupt false force).1 =
      Except.ok pyPathEmpty := by
  by_cases hopt : selectorOptions env.listing true = []
  · exact remove_single_empty env UserAction.interrupt force B hl hbare hopt
  · have hg := get_bare_ok env env.cwd hl
    have hsel := select_interrupt_eq env true hl hopt
    have hpt : path_is_truthy pyPathEmpty = false := by decide
    simp [remove_worktree, hg, hbare, hsel, hpt]

/-- Single-target `remove` with a picked line carrying a truthy first token:
the removal is attempted; on success the outcome follows the final-segment
comparison, on failure it is the no-op sentinel. -/
theorem remove_single_pick (env : GitEnv) (choice tok : String)
    (toks : List String) (force : Bool) (B : PyPath)
    (hl : env.gitOk ["worktree", "list"] env.cwd = true)
    (hbare : bareScan (pySplitlines env.listing) = Except.ok B)
    (hopt : selectorOptions env.listing true ≠ [])
    (hsplit : pySplit choice = tok :: toks)
    (htr : path_is_truthy (pathFromString tok) = true) :
    (remove_worktree env (UserAction.pick choice) false force).1 =
      (if env.gitOk (rmArgs force (pathStr (pathFromString tok))) env.cwd = true
       then Except.ok (if (pathFromString tok).name = env.cwd.name
         then B else env.cwd)
       else Except.ok pyPathEmpty) := by
  have hg := get_bare_ok env env.cwd hl
  have hsel := select_pick_eq env true choice tok toks hl hopt hsplit
  by_cases hgit : env.gitOk (rmArgs force (pathStr (pathFromString tok)))
      env.cwd = true
  · have hrm : git env ["worktree", "remove", pathStr (pathFromString tok),
        if force then "--force" else ""] env.cwd =
        (Except.ok (),
         [Event.gitRun (rmArgs force (pathStr (pathFromString tok))) env.cwd]) :=
      git_ok_eq env _ env.cwd hgit
    simp [remove_worktree, hg, hbare, hsel, htr, hrm, hgit]
  · have hgit2 : env.gitOk (rmArgs force (pathStr (pathFromString tok)))
        env.cwd = false := by simpa using hgit
    have hrm : git env ["worktree", "remove", pathStr (pathFromString tok),
        if force then "--force" else ""] env.cwd =
        (Except.error PyErr.calledProcessError,
         [Event.gitRun (rmArgs force (pathStr (pathFromString tok))) env.cwd]) :=
      git_fail_eq env _ env.cwd hgit2
    simp [remove_worktree, hg, hbare, hsel, htr, hrm, hgit2]

/-- `switch` under a cancelled selection: no-op result. -/
theorem switch_interrupt_res (env : GitEnv)
    (hl : env.gitOk ["worktree", "list"] env.cwd = true) :
    (switch_worktree env UserAction.interrupt).1 = Except.ok pyPathEmpty := by
  have hpt : path_is_truthy pyPathEmpty = false := by decide
  by_cases hopt : selectorOptions env.listing true = []
  · have hsel := select_empty_eq env UserAction.interrupt true hl hopt
    simp [switch_worktree, hsel, hpt]
  · have hsel := select_interrupt_eq env true hl hopt
    simp [switch_worktree, hsel, hpt]

/-- `switch` with an empty candidate list: no-op result, no prompt, error
logged. -/
theorem switch_empty_res (env : GitEnv) (ua : UserAction)
    (hl : env.gitOk ["worktree", "list"] env.cwd = true)
    (hopt : selectorOptions env.listing true = []) :
    (switch_worktree env ua).1 = Except.ok pyPathEmpty ∧
    hasPrompt (switch_worktree env ua).2 = false ∧
    Event.logError "No worktrees available." ∈ (switch_worktree env ua).2 := by
  have hsel := select_empty_eq env ua true hl hopt
  have hpt : path_is_truthy pyPathEmpty = false := by decide
  have e : switch_worktree env ua =
      (Except.ok pyPathEmpty,
       [Event.gitRun ["worktree", "list"] env.cwd,
        Event.logError "No worktrees available."]) := by
    simp [switch_worktree, hsel, hpt]
  rw [e]
  refine ⟨rfl, ?_, ?_⟩
  · simp only [hasPrompt, List.any_cons, List.any_nil, isPromptEv_gitRun,
      isPromptEv_logError, Bool.or_false, Bool.false_or]
  · simp

theorem gitRunArgs_gitRun (a : List String) (c : PyPath) :
    gitRunArgs (Event.gitRun a c) = some a := rfl

theorem gitRunArgs_logError (m : String) : gitRunArgs (Event.logError m) = none := rfl

theorem gitRunArgs_logInfo (m : String) : gitRunArgs (Event.logInfo m) = none := rfl

theorem gitRunArgs_logExc (m : String) :
    gitRunArgs (Event.logException m) = none := rfl

theorem gitRunArgs_prompt (o : List String) :
    gitRunArgs (Event.prompt o) = none := rfl

/-! ## Claim theorems -/

/-- C1: for every listing text, when some line carries the `"(bare)"` marker
the Bare Root Resolver returns the first whitespace token of the first such
line (first match wins) as the bare root path, and when no line carries the
marker it fails with the `NoBareWorktree` error (the
`ValueError "No bare worktree found"` of src/main.py line 59). -/
theorem c1_bare_root_resolver (listing : String) :
    (∀ line, (pySplitlines listing).find? (fun l => strContains l "(bare)") =
        some line →
      ∃ tok toks, pySplit line = tok :: toks ∧
        bareScan (pySplitlines listing) = Except.ok (pathFromString tok))
    ∧ ((pySplitlines listing).find? (fun l => strContains l "(bare)") = none →
      bareScan (pySplitlines listing) =
        Except.error (PyErr.valueError "No bare worktree found")) := by
  constructor
  · intro line hfind
    have hc0 := List.find?_some hfind
    have hc : strContains line "(bare)" = true := hc0
    obtain ⟨tok, toks, hs⟩ : ∃ tok toks, pySplit line = tok :: toks := by
      cases hsp : pySplit line with
      | nil => exact absurd hsp (pySplit_ne_nil_of_bare line hc)
      | cons a as => exact ⟨a, as, rfl⟩
    refine ⟨tok, toks, hs, ?_⟩
    rw [bareScan_eq_find (pySplitlines listing)]
    simp [hfind, hs]
  · intro hfind
    rw [bareScan_eq_find (pySplitlines listing)]
    simp [hfind]

/-- C1 witness: a two-line listing whose first line is bare resolves to
`/repo`; a listing without a bare line fails with the error. -/
theorem c1_witness :
    bareScan (pySplitlines "/repo bare-x (bare)\n/repo/a aaa") =
      Except.ok (pathFromString "/repo") ∧
    bareScan (pySplitlines "/repo/a aaa") =
      Except.error (PyErr.valueError "No bare worktree found") := by
  constructor
  · obtain ⟨tok, toks, hs, hres⟩ :=
      (c1_bare_root_resolver "/repo bare-x (bare)\n/repo/a aaa").1
        "/repo bare-x (bare)" (by decide)
    have he : pySplit "/repo bare-x (bare)" = ["/repo", "bare-x", "(bare)"] := by
      decide
    rw [he] at hs
    injection hs with h1 h2
    rw [hres, ← h1]
  · exact (c1_bare_root_resolver "/repo/a aaa").2 (by decide)

/-- C2 counterexample: the listing of `envC2` contains a blank line, and
`remove --all` on it raises an uncaught `IndexError` — the token-less line
is not skipped silently, refuting the claim. -/
theorem c2_counterexample :
    (pySplitlines envC2.listing).contains "" = true ∧
    (remove_worktree envC2 UserAction.interrupt true false).1 =
      Except.error PyErr.indexError := by decide

/-- C2 (amended): each listing line is interpreted with path = first
whitespace token and bare flag iff it contains `"(bare)"`; when every
non-bare line has at least one token, `remove --all`'s loop completes and
attempts exactly one removal per non-bare line at its first token; but a
non-bare line with no tokens (e.g. a blank line) raises an uncaught
`IndexError` there instead of being skipped silently, while in the selector
every token-less (blank) listing line is kept as a candidate rather than
skipped. -/
theorem c2_parsing_amended (env : GitEnv) (force : Bool) (bp : PyPath)
    (lines : List String) (text : String) (xb : Bool) :
    ((∀ l ∈ lines, strContains l "(bare)" = true ∨ pySplit l ≠ []) →
      (removeAllLoop env force bp lines).1 = Except.ok () ∧
      removeRuns (removeAllLoop env force bp lines).2 = removalTargets lines)
    ∧ (∀ l ∈ lines, strContains l "(bare)" = false → pySplit l = [] →
      (removeAllLoop env force bp lines).1 =
        Except.error PyErr.indexError)
    ∧ (∀ l ∈ pySplitlines text, pySplit l = [] →
      l ∈ selectorOptions text xb) := by
  refine ⟨?_, removeAllLoop_err env force bp lines, ?_⟩
  · intro htok
    exact ⟨(removeAllLoop_spec env force bp lines htok).1,
           (removeAllLoop_spec env force bp lines htok).2.1⟩
  · intro l hl hsplit
    have hb : strContains l "(bare)" = false := by
      cases hb2 : strContains l "(bare)" with
      | false => rfl
      | true => exact absurd hsplit (pySplit_ne_nil_of_bare l hb2)
    simp [selectorOptions, List.mem_filter, hl, hb]

/-- C2 witness: well-formed lines are attempted one per non-bare line at the
first token; a blank line aborts `remove --all` with `IndexError` yet stays
a selector candidate. -/
theorem c2_amended_witness :
    (removeAllLoop envC2 false (pathFromString "/repo")
        ["/repo x (bare)", "/repo/a y"]).1 = Except.ok () ∧
    removeRuns (removeAllLoop envC2 false (pathFromString "/repo")
        ["/repo x (bare)", "/repo/a y"]).2 = ["/repo/a"] ∧
    (removeAllLoop envC2 false (pathFromString "/repo")
        ["/repo x (bare)", ""]).1 = Except.error PyErr.indexError ∧
    "" ∈ selectorOptions "/repo x (bare)\n\n/repo/a y" true := by
  refine ⟨?_, ?_, ?_, ?_⟩
  · exact ((c2_parsing_amended envC2 false (pathFromString "/repo")
      ["/repo x (bare)", "/repo/a y"] "" true).1 (by decide)).1
  · have h := ((c2_parsing_amended envC2 false (pathFromString "/repo")
      ["/repo x (bare)", "/repo/a y"] "" true).1 (by decide)).2
    rw [h]; decide
  · exact (c2_parsing_amended envC2 false (pathFromString "/repo")
      ["/repo x (bare)", ""] "" true).2.1 "" (by decide) (by decide) (by decide)
  · exact (c2_parsing_amended envC2 false (pathFromString "/repo") []
      "/repo x (bare)\n\n/repo/a y" true).2.2 "" (by decide) (by decide)

/-- C3: `add(pathSpec)` with a non-empty pathSpec against resolved bare root
`B` returns `B / pathSpec.firstArgument` as the outcome; fetch and merge run
only when a default branch is discoverable (with a successful add, the fetch
is issued, and when it also succeeds the merge is issued). -/
theorem c3_add_worktree (env : GitEnv) (p0 : String) (rest : List String)
    (B : PyPath)
    (hl : env.gitOk ["worktree", "list"] env.cwd = true)
    (hbare : bareScan (pySplitlines env.listing) = Except.ok B) :
    (add_worktree env (p0 :: rest)).1 = Except.ok (B.div p0) ∧
    (env.defaultBranch = "" →
      hasFetch (add_worktree env (p0 :: rest)).2 = false ∧
      hasMerge (add_worktree env (p0 :: rest)).2 = false) ∧
    (env.defaultBranch ≠ "" → env.gitOk (addArgs (p0 :: rest)) B = true →
      hasFetch (add_worktree env (p0 :: rest)).2 = true ∧
      (env.gitOk ["fetch", "--all"] (B.div p0) = true →
        hasMerge (add_worktree env (p0 :: rest)).2 = true)) := by
  refine ⟨add_result_ok env p0 rest B hl hbare, ?_, ?_⟩
  · intro hdb
    exact add_no_branch env p0 rest B hl hbare hdb
  · intro hdb hadd
    exact add_fetch_ran env p0 rest B hl hbare hdb hadd

/-- C3 witness: `add("feature-x")` against bare root `/repo` with
discoverable branch `main` returns `/repo/feature-x` and issues fetch and
merge. -/
theorem c3_witness :
    (add_worktree envC3 ["feature-x"]).1 =
      Except.ok (pathFromString "/repo/feature-x") ∧
    hasFetch (add_worktree envC3 ["feature-x"]).2 = true ∧
    hasMerge (add_worktree envC3 ["feature-x"]).2 = true := by
  have h := c3_add_worktree envC3 "feature-x" [] (pathFromString "/repo")
    (by decide) (by decide)
  have h3 := h.2.2 (by decide) (by decide)
  refine ⟨?_, h3.1, h3.2 (by decide)⟩
  rw [h.1]; decide

/-- C4 counterexample: in `envC4` the fetch step runs and fails, the merge
is aborted and the failure logged, yet the operation returns the computed
path `/repo/feature-x` as its outcome — not a failure outcome, refuting the
claim. -/
theorem c4_counterexample :
    hasFetch (add_worktree envC4 ["feature-x"]).2 = true ∧
    envC4.gitOk ["fetch", "--all"] (pathFromString "/repo/feature-x") = false ∧
    hasMerge (add_worktree envC4 ["feature-x"]).2 = false ∧
    hasExceptionLog (add_worktree envC4 ["feature-x"]).2 = true ∧
    (add_worktree envC4 ["feature-x"]).1 =
      Except.ok (pathFromString "/repo/feature-x") := by decide

/-- C4 (amended): any failed subprocess step in `add` — the add step itself,
the fetch, or the merge — aborts the remaining steps of the call and is
logged, but the operation returns the computed worktree path (the path
already created), not a distinct failure outcome. -/
theorem c4_failure_policy (env : GitEnv) (p0 : String) (rest : List String)
    (B : PyPath)
    (hl : env.gitOk ["worktree", "list"] env.cwd = true)
    (hbare : bareScan (pySplitlines env.listing) = Except.ok B) :
    (env.gitOk (addArgs (p0 :: rest)) B = false →
      hasFetch (add_worktree env (p0 :: rest)).2 = false ∧
      hasMerge (add_worktree env (p0 :: rest)).2 = false ∧
      hasExceptionLog (add_worktree env (p0 :: rest)).2 = true ∧
      (add_worktree env (p0 :: rest)).1 = Except.ok (B.div p0))
    ∧ (env.defaultBranch ≠ "" → env.gitOk (addArgs (p0 :: rest)) B = true →
       env.gitOk ["fetch", "--all"] (B.div p0) = false →
      hasMerge (add_worktree env (p0 :: rest)).2 = false ∧
      hasExceptionLog (add_worktree env (p0 :: rest)).2 = true ∧
      (add_worktree env (p0 :: rest)).1 = Except.ok (B.div p0))
    ∧ (env.defaultBranch ≠ "" → env.gitOk (addArgs (p0 :: rest)) B = true →
       env.gitOk ["fetch", "--all"] (B.div p0) = true →
       env.gitOk ["merge", env.defaultBranch] (B.div p0) = false →
      hasExceptionLog (add_worktree env (p0 :: rest)).2 = true ∧
      (add_worktree env (p0 :: rest)).1 = Except.ok (B.div p0)) := by
  refine ⟨?_, ?_, ?_⟩
  · intro hadd
    have h := add_step_failed env p0 rest B hl hbare hadd
    exact ⟨h.1, h.2.1, h.2.2, add_result_ok env p0 rest B hl hbare⟩
  · intro hdb hadd hfetch
    have h := add_fetch_failed env p0 rest B hl hbare hdb hadd hfetch
    exact ⟨h.2.1, h.2.2, add_result_ok env p0 rest B hl hbare⟩
  · intro hdb hadd hfetch hmerge
    exact ⟨add_merge_failed env p0 rest B hl hbare hdb hadd hfetch hmerge,
           add_result_ok env p0 rest B hl hbare⟩

/-- C4 witness: when the `worktree add` step itself fails, no fetch runs,
the failure is logged, and the computed path is still the outcome; when only
the merge fails, the failure is logged and the computed path is still the
outcome. -/
theorem c4_witness :
    hasFetch (add_worktree envC4w ["feature-x"]).2 = false ∧
    hasExceptionLog (add_worktree envC4w ["feature-x"]).2 = true ∧
    (add_worktree envC4w ["feature-x"]).1 =
      Except.ok (pathFromString "/repo/feature-x") ∧
    hasExceptionLog (add_worktree envC4m ["feature-x"]).2 = true ∧
    (add_worktree envC4m ["feature-x"]).1 =
      Except.ok (pathFromString "/repo/feature-x") := by
  have h := (c4_failure_policy envC4w "feature-x" [] (pathFromString "/repo")
    (by decide) (by decide)).1 (by decide)
  have hm := (c4_failure_policy envC4m "feature-x" [] (pathFromString "/repo")
    (by decide) (by decide)).2.2 (by decide) (by decide) (by decide) (by decide)
  refine ⟨h.1, h.2.2.1, ?_, hm.1, ?_⟩
  · rw [h.2.2.2]; decide
  · rw [hm.2]; decide

/-- C5: `remove --all` (over a listing whose non-bare lines carry tokens)
attempts removal for every non-bare record independently of individual
failures, logs each failure, and returns the bare root as the outcome. -/
theorem c5_remove_all (env : GitEnv) (ua : UserAction) (force : Bool)
    (B : PyPath)
    (hl : env.gitOk ["worktree", "list"] env.cwd = true)
    (hbare : bareScan (pySplitlines env.listing) = Except.ok B)
    (hlB : env.gitOk ["worktree", "list"] B = true)
    (htok : ∀ l ∈ pySplitlines env.listing,
      strContains l "(bare)" = true ∨ pySplit l ≠ []) :
    (remove_worktree env ua true force).1 = Except.ok B ∧
    removeRuns (remove_worktree env ua true force).2 =
      removalTargets (pySplitlines env.listing) ∧
    (∀ tok ∈ removalTargets (pySplitlines env.listing),
      env.gitOk (rmArgs force tok) B = false →
        Event.logException ("Failed to remove " ++ tok ++ " worktree") ∈
          (remove_worktree env ua true force).2) :=
  remove_all_spec env ua force B hl hbare hlB htok

/-- C5 witness: the spec's scenario — removing `/repo/a` fails, `/repo/b`
succeeds; both are attempted, the failure is logged, and the outcome is the
bare root. -/
theorem c5_witness :
    (remove_worktree envC5 UserAction.interrupt true false).1 =
      Except.ok (pathFromString "/repo") ∧
    removeRuns (remove_worktree envC5 UserAction.interrupt true false).2 =
      ["/repo/a", "/repo/b"] ∧
    Event.logException "Failed to remove /repo/a worktree" ∈
      (remove_worktree envC5 UserAction.interrupt true false).2 := by
  have h := c5_remove_all envC5 UserAction.interrupt false
    (pathFromString "/repo") (by decide) (by decide) (by decide) (by decide)
  refine ⟨h.1, ?_, ?_⟩
  · rw [h.2.1]; decide
  · exact h.2.2 "/repo/a" (by decide) (by decide)

/-- C6: single-target `remove` — empty or cancelled selection yields the
no-op sentinel `Path()`; a successful removal yields the bare root when the
removed worktree's final path segment equals the current directory's final
segment and the unchanged current directory otherwise; a failed removal
yields the unresolved sentinel `Path()`. -/
theorem c6_remove_single (env : GitEnv) (ua : UserAction) (force : Bool)
    (B : PyPath)
    (hl : env.gitOk ["worktree", "list"] env.cwd = true)
    (hbare : bareScan (pySplitlines env.listing) = Except.ok B) :
    (selectorOptions env.listing true = [] →
      (remove_worktree env ua false force).1 = Except.ok pyPathEmpty)
    ∧ ((remove_worktree env UserAction.interrupt false force).1 =
        Except.ok pyPathEmpty)
    ∧ (∀ choice tok toks, selectorOptions env.listing true ≠ [] →
        pySplit choice = tok :: toks →
        path_is_truthy (pathFromString tok) = true →
        env.gitOk (rmArgs force (pathStr (pathFromString tok))) env.cwd = true →
        (remove_worktree env (UserAction.pick choice) false force).1 =
          Except.ok (if (pathFromString tok).name = env.cwd.name
            then B else env.cwd))
    ∧ (∀ choice tok toks, selectorOptions env.listing true ≠ [] →
        pySplit choice = tok :: toks →
        path_is_truthy (pathFromString tok) = true →
        env.gitOk (rmArgs force (pathStr (pathFromString tok))) env.cwd = false →
        (remove_worktree env (UserAction.pick choice) false force).1 =
          Except.ok pyPathEmpty) := by
  refine ⟨fun hopt => remove_single_empty env ua force B hl hbare hopt,
          remove_single_interrupt env force B hl hbare, ?_, ?_⟩
  · intro choice tok toks hopt hsplit htr hgit
    have h := remove_single_pick env choice tok toks force B hl hbare hopt
      hsplit htr
    rw [h, if_pos hgit]
  · intro choice tok toks hopt hsplit htr hgit
    have h := remove_single_pick env choice tok toks force B hl hbare hopt
      hsplit htr
    rw [h, if_neg (by simp [hgit])]

/-- C6 witness: removing `/repo/a` while standing in `/other/a` (same final
segment) yields the bare root; removing `/repo/b` yields the unchanged
current directory; a cancelled selection yields the no-op sentinel. -/
theorem c6_witness :
    (remove_worktree envC6 (UserAction.pick "/repo/a y") false false).1 =
      Except.ok (pathFromString "/repo") ∧
    (remove_worktree envC6 (UserAction.pick "/repo/b z") false false).1 =
      Except.ok (pathFromString "/other/a") ∧
    (remove_worktree envC6 UserAction.interrupt false false).1 =
      Except.ok pyPathEmpty := by
  have h := c6_remove_single envC6 UserAction.interrupt false
    (pathFromString "/repo") (by decide) (by decide)
  refine ⟨?_, ?_, h.2.1⟩
  · have h3 := h.2.2.1 "/repo/a y" "/repo/a" ["y"] (by decide) (by decide)
      (by decide) (by decide)
    rw [h3]; decide
  · have h3 := h.2.2.1 "/repo/b z" "/repo/b" ["z"] (by decide) (by decide)
      (by decide) (by decide)
    rw [h3]; decide

/-- C7: a selector call whose filtered candidate list is empty logs the
`NoWorktreesAvailable` condition (`"No worktrees available."`) and returns
the empty sentinel without ever invoking the interactive prompt; `switch`
then propagates the no-op outcome, also without a prompt. -/
theorem c7_selector_empty (env : GitEnv) (ua : UserAction)
    (hl : env.gitOk ["worktree", "list"] env.cwd = true)
    (hopt : selectorOptions env.listing true = []) :
    (select_worktree env ua true).1 = Except.ok pyPathEmpty ∧
    hasPrompt (select_worktree env ua true).2 = false ∧
    Event.logError "No worktrees available." ∈ (select_worktree env ua true).2 ∧
    (switch_worktree env ua).1 = Except.ok pyPathEmpty ∧
    hasPrompt (switch_worktree env ua).2 = false := by
  have hsel := select_empty_eq env ua true hl hopt
  have hsw := switch_empty_res env ua hl hopt
  refine ⟨?_, ?_, ?_, hsw.1, hsw.2.1⟩
  · rw [hsel]
  · rw [hsel]
    simp only [hasPrompt, List.any_cons, List.any_nil, isPromptEv_gitRun,
      isPromptEv_logError, Bool.or_false, Bool.false_or]
  · rw [hsel]
    simp

/-- C7 witness: a listing holding only the bare record (with bare excluded)
yields the no-op sentinel and never invokes the prompt. -/
theorem c7_witness :
    (select_worktree envC7 UserAction.interrupt true).1 =
      Except.ok pyPathEmpty ∧
    hasPrompt (select_worktree envC7 UserAction.interrupt true).2 = false ∧
    (switch_worktree envC7 UserAction.interrupt).1 = Except.ok pyPathEmpty ∧
    hasPrompt (switch_worktree envC7 UserAction.interrupt).2 = false := by
  have h := c7_selector_empty envC7 UserAction.interrupt (by decide) (by decide)
  exact ⟨h.1, h.2.1, h.2.2.2.1, h.2.2.2.2⟩

/-- C8: user cancellation (`KeyboardInterrupt` during `iterfzf`) yields the
cancelled sentinel `Path()` from the selector and hence a no-op `Except.ok`
outcome from both `switch` and single-target `remove` — never an uncaught
exception. -/
theorem c8_cancellation (env : GitEnv) (force : Bool) (B : PyPath)
    (hl : env.gitOk ["worktree", "list"] env.cwd = true)
    (hbare : bareScan (pySplitlines env.listing) = Except.ok B) :
    (select_worktree env UserAction.interrupt true).1 = Except.ok pyPathEmpty ∧
    (switch_worktree env UserAction.interrupt).1 = Except.ok pyPathEmpty ∧
    (remove_worktree env UserAction.interrupt false force).1 =
      Except.ok pyPathEmpty := by
  refine ⟨?_, switch_interrupt_res env hl,
    remove_single_interrupt env force B hl hbare⟩
  by_cases hopt : selectorOptions env.listing true = []
  · rw [select_empty_eq env UserAction.interrupt true hl hopt]
  · rw [select_interrupt_eq env true hl hopt]

/-- C8 witness: cancellation in a populated listing yields a no-op outcome
from switch and from single-target remove (with force). -/
theorem c8_witness :
    (switch_worktree envC8 UserAction.interrupt).1 = Except.ok pyPathEmpty ∧
    (remove_worktree envC8 UserAction.interrupt false true).1 =
      Except.ok pyPathEmpty := by
  have h := c8_cancellation envC8 true (pathFromString "/repo") (by decide)
    (by decide)
  exact ⟨h.2.1, h.2.2⟩

/-- C9 counterexample: inside a repository whose listing has no bare record,
the `bare` and single-target `remove` commands crash the process with the
uncaught `NoBareWorktree` `ValueError` — an error other than
`NotARepository` escapes to the dispatcher and terminates the whole process,
refuting the claim. -/
theorem c9_counterexample :
    (main_dispatch envC9 Command.bare UserAction.interrupt).1 =
      ProcResult.crashed (PyErr.valueError "No bare worktree found") ∧
    (main_dispatch envC9 (Command.remove false false) UserAction.interrupt).1 =
      ProcResult.crashed (PyErr.valueError "No bare worktree found") := by
  decide

/-- C9 (amended): `NotARepository` exits with code 128 before any operation
runs (only `rev-parse` was invoked); subprocess failures inside the
add/fetch/merge/remove steps are caught at the operation boundary and
converted to outcomes; but `NoBareWorktree` escapes the operations uncaught
and also terminates the process. -/
theorem c9_propagation (env : GitEnv) (cmd : Command) (ua : UserAction)
    (force : Bool) (p0 : String) (rest2 : List String) (B : PyPath) :
    (env.gitOk ["rev-parse"] env.cwd = false →
      (main_dispatch env cmd ua).1 = ProcResult.exited 128 ∧
      gitRuns (main_dispatch env cmd ua).2 = [["rev-parse"]])
    ∧ (env.gitOk ["rev-parse"] env.cwd = true →
       env.gitOk ["worktree", "list"] env.cwd = true →
       bareScan (pySplitlines env.listing) =
         Except.error (PyErr.valueError "No bare worktree found") →
       (main_dispatch env Command.bare ua).1 =
         ProcResult.crashed (PyErr.valueError "No bare worktree found"))
    ∧ (env.gitOk ["rev-parse"] env.cwd = true →
       env.gitOk ["worktree", "list"] env.cwd = true →
       bareScan (pySplitlines env.listing) = Except.ok B →
       env.gitOk ["worktree", "list"] B = true →
       (∀ l ∈ pySplitlines env.listing,
         strContains l "(bare)" = true ∨ pySplit l ≠ []) →
       (main_dispatch env (Command.add (p0 :: rest2)) ua).1 =
         ProcResult.printed (pathStr (B.div p0)) ∧
       (main_dispatch env (Command.remove true force) ua).1 =
         ProcResult.printed (pathStr B) ∧
       (main_dispatch env (Command.remove false force) UserAction.interrupt).1 =
         ProcResult.printed "." ∧
       (main_dispatch env Command.switch UserAction.interrupt).1 =
         ProcResult.printed ".") := by
  refine ⟨?_, ?_, ?_⟩
  · intro hrev
    have hin := inside_repo_false env hrev
    have e : main_dispatch env cmd ua =
        (ProcResult.exited 128,
         [Event.gitRun ["rev-parse"] env.cwd,
          Event.logError "Not a git repository"]) := by
      simp [main_dispatch, hin]
    rw [e]
    refine ⟨rfl, ?_⟩
    simp only [gitRuns, List.filterMap_cons, gitRunArgs_gitRun,
      gitRunArgs_logError, List.filterMap_nil]
  · intro hrev hl hbareE
    have hin := inside_repo_true env hrev
    have hg := get_bare_ok env env.cwd hl
    simp [main_dispatch, hin, cd_bare, hg, hbareE]
  · intro hrev hl hbare hlB htok
    have hin := inside_repo_true env hrev
    refine ⟨?_, ?_, ?_, ?_⟩
    · rcases ha : add_worktree env (p0 :: rest2) with ⟨r, ev⟩
      have hr : r = Except.ok (B.div p0) := by
        have h2 := add_result_ok env p0 rest2 B hl hbare
        rw [ha] at h2
        exact h2
      subst hr
      simp [main_dispatch, hin, ha]
    · rcases ha : remove_worktree env ua true force with ⟨r, ev⟩
      have hr : r = Except.ok B := by
        have h2 := (remove_all_spec env ua force B hl hbare hlB htok).1
        rw [ha] at h2
        exact h2
      subst hr
      simp [main_dispatch, hin, ha]
    · rcases ha : remove_worktree env UserAction.interrupt false force
          with ⟨r, ev⟩
      have hr : r = Except.ok pyPathEmpty := by
        have h2 := remove_single_interrupt env force B hl hbare
        rw [ha] at h2
        exact h2
      subst hr
      have hps : pathStr pyPathEmpty = "." := rfl
      simp [main_dispatch, hin, ha, hps]
    · rcases ha : switch_worktree env UserAction.interrupt with ⟨r, ev⟩
      have hr : r = Except.ok pyPathEmpty := by
        have h2 := switch_interrupt_res env hl
        rw [ha] at h2
        exact h2
      subst hr
      have hps : pathStr pyPathEmpty = "." := rfl
      simp [main_dispatch, hin, ha, hps]

/-- C9 witness: outside a repository the process exits 128 having only run
`rev-parse`; inside, with a bare root, `remove --all` completes and prints
the bare root even though subprocess failures are possible. -/
theorem c9_witness :
    (main_dispatch envC9w1 Command.switch UserAction.interrupt).1 =
      ProcResult.exited 128 ∧
    (main_dispatch envC9w2 (Command.remove true false) UserAction.interrupt).1 =
      ProcResult.printed "/repo" := by
  constructor
  · exact ((c9_propagation envC9w1 Command.switch UserAction.interrupt false
      "x" [] pyPathEmpty).1 (by decide)).1
  · have h := ((c9_propagation envC9w2 (Command.remove true false)
      UserAction.interrupt false "x" [] (pathFromString "/repo")).2.2
      (by decide) (by decide) (by decide) (by decide) (by decide)).2.1
    rw [h]; decide

/-- C10: `add` requires a non-empty pathSpec: on an empty argument list the
`args.path[0]` indexing raises an uncaught `IndexError` — the operation
never returns an outcome (success or failure) and the process crashes. -/
theorem c10_add_empty (env : GitEnv) (ua : UserAction) (B : PyPath)
    (hrev : env.gitOk ["rev-parse"] env.cwd = true)
    (hl : env.gitOk ["worktree", "list"] env.cwd = true)
    (hbare : bareScan (pySplitlines env.listing) = Except.ok B) :
    (add_worktree env []).1 = Except.error PyErr.indexError ∧
    (∀ p : PyPath, (add_worktree env []).1 ≠ Except.ok p) ∧
    (main_dispatch env (Command.add []) ua).1 =
      ProcResult.crashed PyErr.indexError := by
  have hg := get_bare_ok env env.cwd hl
  have hadd : add_worktree env [] =
      (Except.error PyErr.indexError,
       [Event.gitRun ["worktree", "list"] env.cwd]) := by
    simp [add_worktree, hg, hbare]
  have hin := inside_repo_true env hrev
  refine ⟨by rw [hadd], ?_, ?_⟩
  · intro p h
    rw [hadd] at h
    exact Except.noConfusion h
  · simp [main_dispatch, hin, hadd]

/-- C10 witness: `add` with an empty remainder list crashes with
`IndexError` in `envC10`. -/
theorem c10_witness :
    (add_worktree envC10 []).1 = Except.error PyErr.indexError ∧
    (main_dispatch envC10 (Command.add []) UserAction.interrupt).1 =
      ProcResult.crashed PyErr.indexError := by
  have h := c10_add_empty envC10 UserAction.interrupt (pathFromString "/repo")
    (by decide) (by decide) (by decide)
  exact ⟨h.1, h.2.2⟩
